import Mathlib

/-!
Shallow embedding of `src/webpack.config.js` from the react-webpack
repository: the build-configuration resolver, a pure function from the
build mode (the `NODE_ENV === "production"` flag) to a declarative
configuration structure (output policy, devtool, dev server, loader
rules, optimization policy, plugins).
-/

/-- The build mode: the single environment flag distinguishing
production from development builds. -/
inductive BuildMode
  | production
  | development
deriving DecidableEq, Repr

/-- Mirrors `const isProduction = process.env.NODE_ENV === "production"`. -/
def BuildMode.isProduction : BuildMode → Bool
  | .production => true
  | .development => false

/-- Mirrors reading `process.env.NODE_ENV`: the flag is the comparison of
the environment string with the literal "production". -/
def isProductionOfEnv (nodeEnv : String) : Bool :=
  nodeEnv == "production"

/-- The `output` section of the webpack configuration. -/
structure OutputSection where
  path : String
  filename : String
  assetModuleFilename : String
  clean : Bool
deriving DecidableEq, Repr

/-- A loader appearing in a rule's `use` chain: either a plain string
loader name, or the object reference `MiniCssExtractPlugin.loader`. -/
inductive Loader
  | str (name : String)
  | miniCssExtractLoader
deriving DecidableEq, Repr

/-- A regex literal such as `/\.tsx?$/` or `/\.(png|jpe?g|gif|svg)$/i`,
kept as its pattern text plus the case-insensitivity flag. -/
structure RegexLit where
  pattern : String
  ignoreCase : Bool := false
deriving DecidableEq, Repr

/-- One entry of `module.rules`.  The script and stylesheet rules carry a
`use` chain; the asset rules carry `type: "asset/resource"` and a
`generator.filename` template instead. -/
structure LoaderRule where
  test : RegexLit
  use : List Loader := []
  exclude : Option RegexLit := none
  type : Option String := none
  generatorFilename : Option String := none
deriving DecidableEq, Repr

/-- The `module` section of the configuration. -/
structure ModuleSection where
  rules : List LoaderRule
deriving DecidableEq, Repr

/-- The `devtool` setting: either the literal `false` (disabled) or a
source-map option string. -/
inductive Devtool
  | disabled
  | enabled (kind : String)
deriving DecidableEq, Repr

/-- The `devServer` section of the configuration. -/
structure DevServerSection where
  static : String
  historyApiFallback : Bool
  port : Nat
  «open» : Bool
  hot : Bool
deriving DecidableEq, Repr

/-- An entry of the `optimization.minimizer` array. -/
inductive Minimizer
  | terserPlugin (extractComments : Bool)
  | cssMinimizerPlugin
deriving DecidableEq, Repr

/-- The `optimization` section of the configuration. -/
structure OptimizationSection where
  minimize : Bool
  minimizer : List Minimizer
  splitChunksChunks : String
deriving DecidableEq, Repr

/-- The html-minification options object passed to `HtmlWebpackPlugin`
in production mode. -/
structure HtmlMinifyOptions where
  removeComments : Bool
  collapseWhitespace : Bool
  removeRedundantAttributes : Bool
deriving DecidableEq, Repr

/-- An entry of the `plugins` array: the markup-template plugin (with
its template path and either `false` or a minify-options object), or the
stylesheet-extraction plugin (with its output filename template). -/
inductive Plugin
  | htmlWebpackPlugin (template : String) (minify : Option HtmlMinifyOptions)
  | miniCssExtractPlugin (filename : String)
deriving DecidableEq, Repr

/-- True exactly on the stylesheet-extraction plugin. -/
def Plugin.isMiniCssExtract : Plugin → Bool
  | .miniCssExtractPlugin _ => true
  | _ => false

/-- True exactly on the markup-template plugin. -/
def Plugin.isHtmlWebpack : Plugin → Bool
  | .htmlWebpackPlugin _ _ => true
  | _ => false

/-- The whole structure assigned to `module.exports`. -/
structure Config where
  entry : String
  output : OutputSection
  resolveExtensions : List String
  devtool : Devtool
  devServer : DevServerSection
  module : ModuleSection
  optimization : OptimizationSection
  plugins : List Plugin
  mode : String
deriving DecidableEq, Repr

/-- Direct transcription of the `module.exports` object of
`src/webpack.config.js`, as a function of the production flag. -/
def webpackConfigOf (isProduction : Bool) : Config :=
  { entry := "./src/index.tsx"
  , output :=
      { path := "dist"
      , filename :=
          if isProduction then "js/[name].[contenthash].js"
          else "js/[name].bundle.js"
      , assetModuleFilename := "assets/[hash][ext][query]"
      , clean := true }
  , resolveExtensions := [".tsx", ".ts", ".js"]
  , devtool := if isProduction then .disabled else .enabled "source-map"
  , devServer :=
      { static := "public"
      , historyApiFallback := true
      , port := 3000
      , «open» := true
      , hot := true }
  , module :=
      { rules :=
          [ { test := { pattern := "\\.tsx?$" }
            , use := [.str "ts-loader"]
            , exclude := some { pattern := "node_modules" } }
          , { test := { pattern := "\\.scss$" }
            , use :=
                [ if isProduction then .miniCssExtractLoader
                  else .str "style-loader"
                , .str "css-loader"
                , .str "sass-loader" ] }
          , { test := { pattern := "\\.(png|jpe?g|gif|svg)$", ignoreCase := true }
            , type := some "asset/resource"
            , generatorFilename := some "images/[name].[hash][ext]" }
          , { test := { pattern := "\\.(woff|woff2|eot|ttf|otf)$", ignoreCase := true }
            , type := some "asset/resource"
            , generatorFilename := some "fonts/[name].[hash][ext]" } ] }
  , optimization :=
      { minimize := isProduction
      , minimizer :=
          [ .terserPlugin false
          , .cssMinimizerPlugin ]
      , splitChunksChunks := "all" }
  , plugins :=
      [ .htmlWebpackPlugin "./public/index.html"
          (if isProduction then
            some { removeComments := true
                 , collapseWhitespace := true
                 , removeRedundantAttributes := true }
          else none) ]
      ++ (if isProduction then
            [.miniCssExtractPlugin "css/[name].[contenthash].css"]
          else [])
  , mode := if isProduction then "production" else "development" }

/-- The configuration derived from a build mode. -/
def webpackConfig (m : BuildMode) : Config :=
  webpackConfigOf m.isProduction

/-- Decides whether `pat` occurs contiguously at the head of `s`. -/
def startsWithPat : List Char → List Char → Bool
  | [], _ => true
  | _ :: _, [] => false
  | c :: cs, d :: ds => c == d && startsWithPat cs ds

/-- Decides whether `pat` occurs contiguously somewhere in `s`. -/
def occursIn (pat : List Char) : List Char → Bool
  | [] => pat.isEmpty
  | c :: cs => startsWithPat pat (c :: cs) || occursIn pat cs

/-- Decides whether the string `pat` occurs as a substring of `s`. -/
def containsTemplate (pat s : String) : Bool :=
  occursIn pat.data s.data

/-- C1 counterexample: with BuildMode = development, `minimizeEnabled` is
false yet the minimizer chain is not empty (the code populates
`optimization.minimizer` unconditionally), so the claimed "populated if
and only if `minimizeEnabled`" equivalence and the claimed empty
development-mode chain both fail. -/
theorem C1_dev_minimizer_chain_nonempty :
    (webpackConfig .development).optimization.minimize = false ∧
    (webpackConfig .development).optimization.minimizer ≠ [] ∧
    (webpackConfig .development).optimization.minimizer.length = 2 := by
  decide

/-- C1 (amended): for every BuildMode the minimizer chain has exactly the
same two entries (script minimizer, stylesheet minimizer), while
`minimizeEnabled` alone is mode-dependent, true exactly in production;
so the chain is not empty in development even though minimization is
disabled there. -/
theorem C1_minimizer_chain_mode_invariant (m : BuildMode) :
    (webpackConfig m).optimization.minimizer =
      [.terserPlugin false, .cssMinimizerPlugin] ∧
    (webpackConfig m).optimization.minimize = m.isProduction := by
  cases m <;> decide

/-- C2: the stylesheet-extraction plugin is in the plugin list exactly
when BuildMode is production; the list has length 2 in production and 1
in development, and the markup-template plugin is always present. -/
theorem C2_plugins_conditional_extraction (m : BuildMode) :
    (webpackConfig m).plugins.length = (if m.isProduction then 2 else 1) ∧
    (webpackConfig m).plugins.any Plugin.isMiniCssExtract = m.isProduction ∧
    (webpackConfig m).plugins.any Plugin.isHtmlWebpack = true := by
  cases m <;> decide

/-- C3: the bundle filename template contains the content-fingerprint
placeholder `[contenthash]` exactly when BuildMode is production; in
development it is the stable template with no fingerprint. -/
theorem C3_filename_fingerprint (m : BuildMode) :
    containsTemplate "[contenthash]" (webpackConfig m).output.filename =
      m.isProduction ∧
    (webpackConfig m).output.filename =
      (if m.isProduction then "js/[name].[contenthash].js"
       else "js/[name].bundle.js") := by
  cases m <;> decide

/-- C4: the devtool setting is disabled (the literal `false`) when
BuildMode is production and is the source-map option when BuildMode is
development, so source-map generation is enabled exactly in
development. -/
theorem C4_devtool_iff_development (m : BuildMode) :
    (webpackConfig m).devtool =
      (if m.isProduction then .disabled else .enabled "source-map") := by
  cases m <;> decide

/-- C5: `optimization.minimize` equals the production flag: true when
BuildMode is production, false when BuildMode is development. -/
theorem C5_minimize_equals_production_flag (m : BuildMode) :
    (webpackConfig m).optimization.minimize = m.isProduction := by
  cases m <;> decide

/-- C6: the stylesheet rule's transform chain starts with the
standalone-file extraction loader exactly in production and with the
runtime style-injection loader exactly in development, followed in both
modes by the same CSS-resolution and Sass-compilation transforms. -/
theorem C6_scss_chain (m : BuildMode) :
    ((webpackConfig m).module.rules.get? 1).map LoaderRule.use =
      some
        [ (if m.isProduction then Loader.miniCssExtractLoader
           else Loader.str "style-loader")
        , Loader.str "css-loader"
        , Loader.str "sass-loader" ] := by
  cases m <;> decide

/-- C7: the loader-rule catalogue is mode-invariant: in every BuildMode
it consists of the same four asset-class rules, identified by their
file-extension regex patterns (scripts with types, stylesheets, raster
images, fonts). -/
theorem C7_rule_catalogue_mode_invariant (m : BuildMode) :
    ((webpackConfig m).module.rules.map LoaderRule.test) =
      [ { pattern := "\\.tsx?$" }
      , { pattern := "\\.scss$" }
      , { pattern := "\\.(png|jpe?g|gif|svg)$", ignoreCase := true }
      , { pattern := "\\.(woff|woff2|eot|ttf|otf)$", ignoreCase := true } ] := by
  cases m <;> decide

/-- C8: the dev-server policy is the same fixed structure in every
BuildMode (root directory, port 3000, auto-open, hot reload), and its
single-page-app history fallback flag is always true. -/
theorem C8_devserver_mode_invariant (m m' : BuildMode) :
    (webpackConfig m).devServer = (webpackConfig m').devServer ∧
    (webpackConfig m).devServer.historyApiFallback = true := by
  cases m <;> cases m' <;> decide

/-- C9: configuration derivation is a deterministic function of the
BuildMode: equal inputs give structurally identical configurations. -/
theorem C9_derivation_deterministic (m m' : BuildMode) (h : m = m') :
    webpackConfig m = webpackConfig m' := by
  rw [h]

/-- C9 witness: the determinism theorem applied at the concrete input
BuildMode = production. -/
theorem C9_derivation_deterministic_witness :
    webpackConfig .production = webpackConfig .production :=
  C9_derivation_deterministic .production .production rfl

/-- C10: in every BuildMode the asset filename template and the
generator filename templates of the raster-image and font rules each
contain the `[hash]` placeholder, while the development bundle filename
contains neither `[hash]` nor `[contenthash]`: the development-mode
"no fingerprint" behaviour applies only to the script bundle name. -/
theorem C10_asset_templates_always_hashed (m : BuildMode) :
    containsTemplate "[hash]" (webpackConfig m).output.assetModuleFilename
      = true ∧
    ((webpackConfig m).module.rules.get? 2).bind LoaderRule.generatorFilename
      = some "images/[name].[hash][ext]" ∧
    ((webpackConfig m).module.rules.get? 3).bind LoaderRule.generatorFilename
      = some "fonts/[name].[hash][ext]" ∧
    containsTemplate "[hash]" "images/[name].[hash][ext]" = true ∧
    containsTemplate "[hash]" "fonts/[name].[hash][ext]" = true ∧
    containsTemplate "[hash]"
      (webpackConfig .development).output.filename = false ∧
    containsTemplate "[contenthash]"
      (webpackConfig .development).output.filename = false := by
  cases m <;> decide
